import Mathlib

/-!
Verification of the pure data-shaping and control-flow logic of the
NovaMail AI autoresponder (`gmail-automation-simplegmail.py`).

The script is a single polling loop: fetch unread messages, and for each one
normalize the received timestamp, build previews, ask a language model for a
reply (with fallbacks), compose a threaded MIME reply, send it, mark the
message read, and optionally post a Telegram report.

Python strings are sequences of Unicode code points, so they are embedded as
`List Char` (named `Str` below).  Python `dict.get` becomes `List.lookup`
over an association list, Python truthiness of optional strings becomes
`pyTruthy`, and Python's `x or y` on such values becomes `pyOr`.
-/

/-- Embedding of a Python `str`: a sequence of Unicode code points. -/
abbrev Str := List Char

/-- Truthiness of an optional Python string: `None` and `""` are falsy. -/
def pyTruthy : Option Str → Bool
  | none => false
  | some s => !s.isEmpty

/-- Python `a or b` on optional strings: `b` whenever `a` is falsy. -/
def pyOr (a b : Option Str) : Option Str :=
  if pyTruthy a then a else b

/-- Embedding of a Python header dictionary (keys to values). -/
abbrev Headers := List (Str × Str)

/-- Python `d.get(k)`: the value at key `k`, or `None` when absent. -/
def pyGet (hs : Headers) (k : Str) : Option Str :=
  hs.lookup k

/-- Python `s.lower()` (ASCII-faithful model). -/
def pyLower (s : Str) : Str :=
  s.map Char.toLower

/-- Python `s.strip()`: remove leading and trailing whitespace. -/
def pyStrip (s : Str) : Str :=
  ((s.dropWhile Char.isWhitespace).reverse.dropWhile Char.isWhitespace).reverse

/-- Python `needle in hay` on strings: substring containment. -/
def pyIn (needle : Str) : Str → Bool
  | [] => needle.isEmpty
  | c :: rest => needle.isPrefixOf (c :: rest) || pyIn needle rest

/-- Python `s.startswith(pre)`. -/
def pyStartswith (s pre : Str) : Bool :=
  pre.isPrefixOf s

/-- Fuel-indexed worker for `pyReplace`; the fuel bounds the number of steps
and is instantiated with the length of the scanned string. -/
def pyReplaceAux (old new : Str) : Nat → Str → Str
  | 0, s => s
  | _ + 1, [] => []
  | fuel + 1, c :: rest =>
    if old ≠ [] ∧ old.isPrefixOf (c :: rest) then
      new ++ pyReplaceAux old new fuel (rest.drop (old.length - 1))
    else
      c :: pyReplaceAux old new fuel rest

/-- Python `s.replace(old, new)` (for nonempty `old`; empty `old` leaves `s`). -/
def pyReplace (old new s : Str) : Str :=
  pyReplaceAux old new s.length s

/-! ## Received-timestamp normalization (source lines 71-83)

The script parses `str(msg.date)` with `datetime.fromisoformat`, converts the
result to the fixed UTC+7 timezone `wib_tz`, and renders it with
`strftime("%Y-%m-%d %H:%M:%S WIB")`; any exception falls back to the raw
string.  The library calls are modelled executably below: `fromisoformat`
covers the offset-aware core of ISO 8601 (`YYYY-MM-DD[T ]HH:MM:SS±HH:MM`,
with field validation as in CPython), and the timezone conversion uses exact
civil-calendar arithmetic. -/

/-- A parsed timezone-aware datetime: calendar fields plus a UTC offset in
minutes.  Models the `datetime` object produced by `fromisoformat`. -/
structure PyDateTime where
  year : Nat
  month : Nat
  day : Nat
  hour : Nat
  minute : Nat
  second : Nat
  offset : Int
deriving DecidableEq, Repr

/-- Gregorian leap-year test. -/
def isLeap (y : Nat) : Bool :=
  (y % 4 == 0 && y % 100 != 0) || y % 400 == 0

/-- Number of days in a month of a given year. -/
def daysInMonth (y m : Nat) : Nat :=
  if m = 2 then (if isLeap y then 29 else 28)
  else if m = 4 ∨ m = 6 ∨ m = 9 ∨ m = 11 then 30
  else 31

/-- Value of a decimal digit character, `none` on non-digits. -/
def digitVal (c : Char) : Option Nat :=
  if c.isDigit then some (c.toNat - 48) else none

/-- Two decimal digits as a number. -/
def num2 (a b : Char) : Option Nat := do
  pure (10 * (← digitVal a) + (← digitVal b))

/-- Four decimal digits as a number. -/
def num4 (a b c d : Char) : Option Nat := do
  pure (1000 * (← digitVal a) + 100 * (← digitVal b) + 10 * (← digitVal c) + (← digitVal d))

/-- Model of the offset-aware core of Python `datetime.fromisoformat`:
accepts `YYYY-MM-DD HH:MM:SS±HH:MM` (separator `T` or space) with
range-checked fields, and rejects everything else. -/
def fromisoformat (s : Str) : Option PyDateTime :=
  match s with
  | [y1, y2, y3, y4, '-', mo1, mo2, '-', d1, d2, sep,
     h1, h2, ':', mi1, mi2, ':', s1, s2, sg, oh1, oh2, ':', om1, om2] => do
    let y ← num4 y1 y2 y3 y4
    let mo ← num2 mo1 mo2
    let d ← num2 d1 d2
    let h ← num2 h1 h2
    let mi ← num2 mi1 mi2
    let se ← num2 s1 s2
    let oh ← num2 oh1 oh2
    let om ← num2 om1 om2
    let sign ← if sg = '+' then some (1 : Int) else if sg = '-' then some (-1 : Int) else none
    if (sep = 'T' ∨ sep = ' ') ∧ 1 ≤ mo ∧ mo ≤ 12 ∧ 1 ≤ d ∧ d ≤ daysInMonth y mo ∧
        h < 24 ∧ mi < 60 ∧ se < 60 ∧ oh < 24 ∧ om < 60 then
      some ⟨y, mo, d, h, mi, se, sign * (60 * oh + om)⟩
    else
      none
  | _ => none

/-- Days since 1970-01-01 of a civil date (Hinnant's `days_from_civil`). -/
def days_from_civil (y : Int) (m d : Nat) : Int :=
  let y := if m ≤ 2 then y - 1 else y
  let era : Int := y.ediv 400
  let yoe : Int := y - era * 400
  let doy : Int := (153 * ((m : Int) + (if 2 < m then -3 else 9)) + 2).ediv 5 + (d : Int) - 1
  let doe : Int := yoe * 365 + yoe.ediv 4 - yoe.ediv 100 + doy
  era * 146097 + doe - 719468

/-- Civil date of a count of days since 1970-01-01 (Hinnant's
`civil_from_days`). -/
def civil_from_days (z : Int) : Int × Nat × Nat :=
  let z := z + 719468
  let era : Int := z.ediv 146097
  let doe : Int := z - era * 146097
  let yoe : Int := (doe - doe.ediv 1460 + doe.ediv 36524 - doe.ediv 146096).ediv 365
  let y : Int := yoe + era * 400
  let doy : Int := doe - (365 * yoe + yoe.ediv 4 - yoe.ediv 100)
  let mp : Int := (5 * doy + 2).ediv 153
  let d : Nat := (doy - (153 * mp + 2).ediv 5 + 1).toNat
  let m : Nat := (mp + if mp < 10 then 3 else -9).toNat
  (if m ≤ 2 then y + 1 else y, m, d)

/-- Model of `parsed_email_date.astimezone(wib_tz)` for `wib_tz = UTC+7`:
shift the instant to offset +420 minutes, carrying through the calendar. -/
def astimezone_wib (dt : PyDateTime) : PyDateTime :=
  let total : Int :=
    days_from_civil dt.year dt.month dt.day * 1440 +
      dt.hour * 60 + dt.minute - dt.offset + 420
  let days := total.ediv 1440
  let mins := (total.emod 1440).toNat
  let c := civil_from_days days
  ⟨c.1.toNat, c.2.1, c.2.2, mins / 60, mins % 60, dt.second, 420⟩

/-- A number rendered with at least two digits, zero-padded. -/
def pad2 (n : Nat) : Str :=
  (if n < 10 then "0" ++ toString n else toString n).data

/-- A number rendered with at least four digits, zero-padded. -/
def pad4 (n : Nat) : Str :=
  (if n < 10 then "000" ++ toString n
   else if n < 100 then "00" ++ toString n
   else if n < 1000 then "0" ++ toString n
   else toString n).data

/-- Model of `strftime("%Y-%m-%d %H:%M:%S WIB")`. -/
def strftime_wib (dt : PyDateTime) : Str :=
  pad4 dt.year ++ ("-".data) ++ pad2 dt.month ++ ("-".data) ++ pad2 dt.day ++
    (" ".data) ++ pad2 dt.hour ++ (":".data) ++ pad2 dt.minute ++
    (":".data) ++ pad2 dt.second ++ (" WIB".data)

/-- Source lines 74-83: the displayed received time — the parsed date
converted to UTC+7 and formatted, or the raw date string if parsing fails. -/
def received_time_wib (date : Str) : Str :=
  match fromisoformat date with
  | some dt => strftime_wib (astimezone_wib dt)
  | none => date

/-! ## Previews, AI reply text, subject, threading, reports -/

/-- Source lines 87 and 210: `f"{msg.plain[:limit]}..." if len(msg.plain) >
limit else msg.plain`, with `limit = 100` for the console preview and
`limit = 500` for the Telegram preview. -/
def body_preview (limit : Nat) (plain : Str) : Str :=
  if plain.length > limit then plain.take limit ++ ("...".data) else plain

/-- Outcome of the `client.models.generate_content` call: a response whose
`.text` attribute is an optional string, or a raised exception carrying its
message. -/
inductive AiOutcome where
  | response (text : Option Str)
  | raised (err : Str)
deriving DecidableEq

/-- Source line 128: fallback reply when the model returns empty text. -/
def ai_empty_reply : Str :=
  ("Apologies, I received your email but the AI failed to generate a response at this time.".data)

/-- Source line 141: fallback reply when the model call raises. -/
def ai_unavailable_reply : Str :=
  ("System Notice: The AI assistant is currently unavailable to process this request. We will get back to you manually.".data)

/-- Source lines 118-141: the reply body.  On a response, the stripped text
when `model_response.text` is truthy and its stripped form is nonempty,
otherwise the empty-output fallback; on an exception, the unavailable
fallback. -/
def reply_text : AiOutcome → Str
  | .response (some s) =>
    if s ≠ [] ∧ 0 < (pyStrip s).length then pyStrip s else ai_empty_reply
  | .response none => ai_empty_reply
  | .raised _ => ai_unavailable_reply

/-- Source lines 132-138: console classification of an AI exception.  All
three branches are fixed strings. -/
def ai_error_log (ai_error : Str) : Str :=
  let error_str := pyLower ai_error
  if pyIn ("quota".data) error_str || pyIn ("429".data) error_str then
    ("❌ AI Error: API Quota exceeded or Rate Limited.".data)
  else if pyIn ("api_key".data) error_str || pyIn ("403".data) error_str then
    ("❌ AI Error: API Key is invalid or expired.".data)
  else
    ("❌ AI Error: Failed to generate content due to an unknown API issue.".data)

/-- Source line 145: `msg.subject if msg.subject.startswith("Re:") else
f"Re: {msg.subject}"`. -/
def reply_subject (subject : Str) : Str :=
  if pyStartswith subject ("Re:".data) then subject else ("Re: ".data) ++ subject

/-- The two threading headers injected into the MIME reply. -/
structure ThreadingHeaders where
  in_reply_to : Option Str
  references : Option Str
deriving DecidableEq

/-- Source lines 153-177: retrieve `Message-ID` and `References` (each under
its standard and lowercase keys, Python `or` semantics), and inject
`In-Reply-To`/`References` only when the Message-ID is truthy; `References`
is the prior chain plus a space plus the Message-ID, or the Message-ID alone
when the chain is falsy. -/
def threading_headers (headers : Headers) : ThreadingHeaders :=
  let original_message_id :=
    pyOr (pyGet headers ("Message-ID".data)) (pyGet headers ("message-id".data))
  let refs :=
    pyOr (pyGet headers ("References".data)) (pyGet headers ("references".data))
  if pyTruthy original_message_id then
    { in_reply_to := original_message_id
      references :=
        if pyTruthy refs then
          some (refs.getD [] ++ (" ".data) ++ original_message_id.getD [])
        else
          original_message_id }
  else
    { in_reply_to := none, references := none }

/-- Source lines 214-222: the Markdown report posted to Telegram. -/
def telegram_report (received sender subject preview reply now : Str) : Str :=
  ("🚨 *NOVAMAIL AI REPORT* 🚨\n\n🕒 *Received:* `".data) ++ received ++
    ("`\n👤 *From:* `".data) ++ sender ++
    ("`\n📌 *Subject:* ".data) ++ subject ++
    ("\n\n💬 *Original Message:*\n".data) ++ preview ++
    ("\n\n🤖 *AI Reply Sent:*\n_".data) ++ reply ++
    ("_\n\n⏱️ *Replied At:* `".data) ++ now ++ ("`".data)

/-- Source lines 256-262: the console line printed by the iteration-level
exception handler, classifying on the lowercased error text. -/
def general_error_log (general_error : Str) : Str :=
  let error_str := pyLower general_error
  if pyIn ("credentials".data) error_str || pyIn ("token".data) error_str then
    ("🚨 System Error: Authentication failed. Check your token.json or credentials.".data)
  else
    ("🚨 An unexpected system error occurred. Waiting for the next polling cycle to retry -> ".data)
      ++ error_str ++ (".".data)

/-! ## The per-message pipeline and the polling cycle -/

/-- An unread message as exposed by `simplegmail` (the fields the script
reads). -/
structure InboundMessage where
  sender : Str
  subject : Str
  plain : Str
  date : Str
  thread_id : Str
  headers : Headers
deriving DecidableEq

/-- The notification configuration read from the environment:
`TELEGRAM_TOKEN` and `TELEGRAM_CHAT_ID` (`os.getenv` yields `None` when
unset). -/
structure Config where
  telegram_token : Option Str
  telegram_chat_id : Option Str
deriving DecidableEq

/-- The MIME reply handed to the Gmail send call (source lines 148-189):
addressing, subject, threading headers, the HTML body (newlines replaced by
`<br>`), and the thread id of the raw payload. -/
structure SentReply where
  to_addr : Str
  from_addr : Str
  subject : Str
  in_reply_to : Option Str
  references : Option Str
  html_body : Str
  thread_id : Str
deriving DecidableEq

/-- Observable outcome of processing one message: the reply that is sent,
whether the original is marked read, and the Telegram report text when a
notification is attempted (`none` when the credential guard skips it). -/
structure ProcessOutcome where
  sent : SentReply
  marked_read : Bool
  notification : Option Str
deriving DecidableEq

/-- Source lines 70-229: processing of a single unread message, with the
AI-call outcome and the current-time string passed in as data.  The reply is
composed and sent and the message marked read unconditionally; the Telegram
report is built only when both credentials are truthy. -/
def process_message (cfg : Config) (current_time : Str)
    (msg : InboundMessage) (ai : AiOutcome) : ProcessOutcome :=
  let received := received_time_wib msg.date
  let rtext := reply_text ai
  let th := threading_headers msg.headers
  let sent : SentReply :=
    { to_addr := msg.sender
      from_addr := ("me".data)
      subject := reply_subject msg.subject
      in_reply_to := th.in_reply_to
      references := th.references
      html_body := pyReplace ("\n".data) ("<br>".data) rtext
      thread_id := msg.thread_id }
  let notification :=
    if !pyTruthy cfg.telegram_token || !pyTruthy cfg.telegram_chat_id then
      none
    else
      some (telegram_report received msg.sender msg.subject
        (body_preview 500 msg.plain) rtext current_time)
  { sent := sent, marked_read := true, notification := notification }

/-- Whether the two per-message remote calls that are *not* wrapped in a
local `try` — the Gmail send (line 192) and `mark_as_read` (line 195) —
succeed for a given message.  A `false` raises to the iteration-level
handler. -/
structure Effects where
  send_ok : Bool
  mark_ok : Bool
deriving DecidableEq

/-- Source lines 61-262: one polling cycle over the unread batch.  Each
message either completes (its outcome is collected) or raises, in which case
the `for` loop is abandoned to the iteration-level `except` handler: the
result records the outcomes of completed messages in order and whether the
cycle aborted. -/
def run_cycle (cfg : Config) (now : Str) :
    List (InboundMessage × AiOutcome × Effects) → List ProcessOutcome × Bool
  | [] => ([], false)
  | (msg, ai, fx) :: rest =>
    if fx.send_ok && fx.mark_ok then
      let r := run_cycle cfg now rest
      (process_message cfg now msg ai :: r.1, r.2)
    else
      ([], true)

/-! ## Sample data used by the concrete witnesses -/

/-- A concrete unread message with the given subject, empty header map, and a
parseable ISO date. -/
def sample_message (subj : Str) : InboundMessage :=
  ⟨("a@b.com".data), subj, ("hi there".data), ("2024-03-10T23:30:00+00:00".data),
    ("t1".data), []⟩

/-- A concrete batch entry for `run_cycle`: a sample message with a
successful AI response and the given send/mark effects. -/
def sample_item (subj : Str) (fx : Effects) : InboundMessage × AiOutcome × Effects :=
  (sample_message subj, .response (some ("ok".data)), fx)

/-! ## Sanity checks: the embedded definitions evaluate -/

example : pyIn ("oke".data) ("broken".data) = true := by decide

example : pyIn ("xyz".data) ("broken".data) = false := by decide

example : pyStrip ("  a b ".data) = ("a b".data) := by decide

example : pyReplace ("\n".data) ("<br>".data) ("a\nb".data) = ("a<br>b".data) := by decide

example : pyOr (some []) (some ("x".data)) = some ("x".data) := by decide

example : received_time_wib ("2024-03-10T23:30:00+00:00".data)
    = ("2024-03-11 06:30:00 WIB".data) := by decide

example : received_time_wib ("2023-12-31 22:45:10-05:00".data)
    = ("2024-01-01 10:45:10 WIB".data) := by decide

example : received_time_wib ("not a date".data) = ("not a date".data) := by decide

example : reply_text (.response (some ("  hi  ".data))) = ("hi".data) := by decide

example : reply_text (.response (some ("   ".data))) = ai_empty_reply := by decide

example : reply_subject ("Re: x".data) = ("Re: x".data) := by decide

example : reply_subject ("x".data) = ("Re: x".data) := by decide

example : (threading_headers [(("Message-ID".data), ("<m>".data))]).references
    = some ("<m>".data) := by decide

example : (threading_headers [(("Message-ID".data), ("<m>".data)),
    (("References".data), ("<a> <b>".data))]).references
    = some ("<a> <b> <m>".data) := by decide

/-! ## The claims -/

/-- C1, counterexample to the claim as stated: a message whose headers carry
a References value that is the *empty* string (and a Message-ID) does not
get `References = references ++ " " ++ message_id`; Python truthiness of the
`or`-chain treats the empty chain as absent, so the reply's References is
the Message-ID alone.  Dually, a header map whose Message-ID value is the
empty string yields no References header at all. -/
theorem references_append_counterexample :
    pyGet [(("References".data), ("".data)), (("Message-ID".data), ("<a@b>".data))]
        ("References".data) = some ("".data) ∧
    pyGet [(("References".data), ("".data)), (("Message-ID".data), ("<a@b>".data))]
        ("Message-ID".data) = some ("<a@b>".data) ∧
    (threading_headers [(("References".data), ("".data)), (("Message-ID".data), ("<a@b>".data))]).references
      ≠ some (("".data) ++ (" ".data) ++ ("<a@b>".data)) ∧
    pyGet [(("References".data), ("<r>".data)), (("Message-ID".data), ("".data))]
        ("Message-ID".data) = some ("".data) ∧
    (threading_headers [(("References".data), ("<r>".data)), (("Message-ID".data), ("".data))]).references
      = none := by decide

/-- C1, amended: for every message whose header map yields a *nonempty*
References chain `r` (first nonempty value among keys "References" and
"references", Python `or` semantics) and a *nonempty* Message-ID `mid`
(likewise among "Message-ID" and "message-id"), the reply's References
header equals the chain, a single space, and the Message-ID concatenated. -/
theorem references_append_amended (hs : Headers) (r mid : Str)
    (hr : pyOr (pyGet hs ("References".data)) (pyGet hs ("references".data)) = some r)
    (hrne : r ≠ [])
    (hm : pyOr (pyGet hs ("Message-ID".data)) (pyGet hs ("message-id".data)) = some mid)
    (hmne : mid ≠ []) :
    (threading_headers hs).references = some (r ++ (" ".data) ++ mid) := by
  simp [threading_headers, hr, hm, pyTruthy, hrne, hmne]

/-- C1, witness: a concrete header map with chain `<a> <b>` and Message-ID
`<m>` produces References `<a> <b> <m>`. -/
theorem references_append_amended_witness :
    (threading_headers [(("Message-ID".data), ("<m>".data)),
        (("References".data), ("<a> <b>".data))]).references
      = some (("<a> <b>".data) ++ (" ".data) ++ ("<m>".data)) :=
  references_append_amended
    [(("Message-ID".data), ("<m>".data)), (("References".data), ("<a> <b>".data))]
    ("<a> <b>".data) ("<m>".data) (by decide) (by decide) (by decide) (by decide)

/-- C2: when the header map yields no Message-ID under either key, the
composed reply carries neither an In-Reply-To nor a References header —
even if the original message has a References header. -/
theorem no_message_id_omits_threading (hs : Headers)
    (h1 : pyGet hs ("Message-ID".data) = none)
    (h2 : pyGet hs ("message-id".data) = none) :
    (threading_headers hs).in_reply_to = none ∧
    (threading_headers hs).references = none := by
  simp [threading_headers, h1, h2, pyOr, pyTruthy]

/-- C2, witness: a message that has a References header but no Message-ID
gets no threading headers in the reply. -/
theorem no_message_id_omits_threading_witness :
    pyGet [(("References".data), ("<r>".data))] ("Message-ID".data) = none ∧
    pyGet [(("References".data), ("<r>".data))] ("message-id".data) = none ∧
    (threading_headers [(("References".data), ("<r>".data))]).in_reply_to = none ∧
    (threading_headers [(("References".data), ("<r>".data))]).references = none :=
  ⟨by decide, by decide,
    (no_message_id_omits_threading _ (by decide) (by decide)).1,
    (no_message_id_omits_threading _ (by decide) (by decide)).2⟩

/-- C3, code-bug evidence: the generic branch of the iteration-level handler
interpolates the lowercased raw error text into the console line (source
line 262), contradicting the adjacent comment "Do NOT print raw
'general_error' to avoid credential leaks": a generic error's text appears
verbatim (lowercased) in the log, and two generic-category errors with
different texts produce different log lines. -/
theorem general_error_log_leaks_raw_text :
    general_error_log ("Connection reset by peer".data)
      = ("🚨 An unexpected system error occurred. Waiting for the next polling cycle to retry -> ".data)
        ++ ("connection reset by peer".data) ++ (".".data) ∧
    pyIn ("credentials".data) (pyLower ("HttpError 500 at endpoint A".data)) = false ∧
    pyIn ("token".data) (pyLower ("HttpError 500 at endpoint A".data)) = false ∧
    pyIn ("credentials".data) (pyLower ("HttpError 500 at endpoint B".data)) = false ∧
    pyIn ("token".data) (pyLower ("HttpError 500 at endpoint B".data)) = false ∧
    general_error_log ("HttpError 500 at endpoint A".data)
      ≠ general_error_log ("HttpError 500 at endpoint B".data) := by decide

/-- C4: when the language-model call raises, the reply body is the fixed
nonempty fallback string — it is what the MIME message carries for any
message and configuration — and the Telegram notification does not depend
on the error text. -/
theorem ai_exception_reply_is_fixed_fallback (err err' : Str) (cfg : Config)
    (now : Str) (msg : InboundMessage) :
    reply_text (.raised err) = ai_unavailable_reply ∧
    ai_unavailable_reply ≠ [] ∧
    (process_message cfg now msg (.raised err)).sent.html_body = ai_unavailable_reply ∧
    (process_message cfg now msg (.raised err)).notification
      = (process_message cfg now msg (.raised err')).notification := by
  refine ⟨rfl, by decide, ?_, rfl⟩
  simp only [process_message, reply_text]
  decide

/-- C5: the reply-subject rule is idempotent, and a subject already starting
with "Re:" is returned unchanged. -/
theorem reply_subject_idempotent (s : Str) :
    reply_subject (reply_subject s) = reply_subject s ∧
    (pyStartswith s ("Re:".data) = true → reply_subject s = s) := by
  constructor
  · by_cases h : pyStartswith s ("Re:".data)
    · simp [reply_subject, h]
    · have hpre : pyStartswith ('R' :: 'e' :: ':' :: ' ' :: s) (['R', 'e', ':']) = true := rfl
      simp [reply_subject, h, hpre]
  · intro h
    simp [reply_subject, h]

/-- C5, witness: a subject already prefixed is unchanged, and re-applying
the rule to a normalized subject changes nothing. -/
theorem reply_subject_idempotent_witness :
    pyStartswith ("Re: hi".data) ("Re:".data) = true ∧
    reply_subject ("Re: hi".data) = ("Re: hi".data) ∧
    reply_subject (reply_subject ("hello".data)) = reply_subject ("hello".data) :=
  ⟨by decide, (reply_subject_idempotent ("Re: hi".data)).2 (by decide),
    (reply_subject_idempotent ("hello".data)).1⟩

/-- C6: the console preview is the first 100 characters plus "..." when the
body exceeds 100 characters (and that prefix has exactly 100 characters),
and the body unchanged otherwise; the Telegram preview obeys the same rule
at threshold 500. -/
theorem body_preview_truncation (b : Str) :
    (b.length > 100 → body_preview 100 b = b.take 100 ++ ("...".data) ∧ (b.take 100).length = 100) ∧
    (b.length ≤ 100 → body_preview 100 b = b) ∧
    (b.length > 500 → body_preview 500 b = b.take 500 ++ ("...".data) ∧ (b.take 500).length = 500) ∧
    (b.length ≤ 500 → body_preview 500 b = b) := by
  refine ⟨fun h => ⟨?_, ?_⟩, fun h => ?_, fun h => ⟨?_, ?_⟩, fun h => ?_⟩ <;>
    simp [body_preview, h, List.length_take] <;> omega

set_option maxRecDepth 4000 in
/-- C6, witness: a 101-character body is truncated to 100 characters plus
"...", a 501-character body to 500 plus "...", and a short body passes
through both previews unchanged. -/
theorem body_preview_truncation_witness :
    (List.replicate 101 'a').length > 100 ∧
    body_preview 100 (List.replicate 101 'a')
      = (List.replicate 101 'a').take 100 ++ ("...".data) ∧
    ((List.replicate 101 'a').take 100).length = 100 ∧
    ("short".data).length ≤ 100 ∧
    body_preview 100 ("short".data) = ("short".data) ∧
    (List.replicate 501 'b').length > 500 ∧
    body_preview 500 (List.replicate 501 'b')
      = (List.replicate 501 'b').take 500 ++ ("...".data) ∧
    ((List.replicate 501 'b').take 500).length = 500 ∧
    body_preview 500 ("short".data) = ("short".data) :=
  ⟨by decide,
    ((body_preview_truncation (List.replicate 101 'a')).1 (by decide)).1,
    ((body_preview_truncation (List.replicate 101 'a')).1 (by decide)).2,
    by decide,
    (body_preview_truncation ("short".data)).2.1 (by decide),
    by decide,
    ((body_preview_truncation (List.replicate 501 'b')).2.2.1 (by decide)).1,
    ((body_preview_truncation (List.replicate 501 'b')).2.2.1 (by decide)).2,
    (body_preview_truncation ("short".data)).2.2.2 (by decide)⟩

/-- C7: the sent reply and the read-marking are the same whatever the
notification configuration — only the notification step depends on it, and
it is skipped (no report is built) when either credential is falsy. -/
theorem notification_guard_independent (cfg cfg' : Config) (now : Str)
    (msg : InboundMessage) (ai : AiOutcome) :
    (process_message cfg now msg ai).sent = (process_message cfg' now msg ai).sent ∧
    (process_message cfg now msg ai).marked_read = true ∧
    ((!pyTruthy cfg.telegram_token || !pyTruthy cfg.telegram_chat_id) = true →
      (process_message cfg now msg ai).notification = none) := by
  refine ⟨rfl, rfl, fun h => ?_⟩
  simp [process_message, h]

/-- C7, witness: with the bot token missing the concrete sample message is
still replied to identically to the fully-configured run, is marked read,
and no notification is produced. -/
theorem notification_guard_independent_witness :
    (process_message ⟨none, some ("chat7".data)⟩ ("now".data)
        (sample_message ("Hello".data)) (.response (some ("ok".data)))).sent
      = (process_message ⟨some ("tok7".data), some ("chat7".data)⟩ ("now".data)
          (sample_message ("Hello".data)) (.response (some ("ok".data)))).sent ∧
    (process_message ⟨none, some ("chat7".data)⟩ ("now".data)
        (sample_message ("Hello".data)) (.response (some ("ok".data)))).marked_read = true ∧
    (process_message ⟨none, some ("chat7".data)⟩ ("now".data)
        (sample_message ("Hello".data)) (.response (some ("ok".data)))).notification = none :=
  ⟨(notification_guard_independent ⟨none, some ("chat7".data)⟩
      ⟨some ("tok7".data), some ("chat7".data)⟩ ("now".data)
      (sample_message ("Hello".data)) (.response (some ("ok".data)))).1,
    (notification_guard_independent ⟨none, some ("chat7".data)⟩
      ⟨some ("tok7".data), some ("chat7".data)⟩ ("now".data)
      (sample_message ("Hello".data)) (.response (some ("ok".data)))).2.1,
    (notification_guard_independent ⟨none, some ("chat7".data)⟩
      ⟨some ("tok7".data), some ("chat7".data)⟩ ("now".data)
      (sample_message ("Hello".data)) (.response (some ("ok".data)))).2.2 (by decide)⟩

/-- C8: the displayed received time is the parsed date converted to UTC+7
and rendered as `%Y-%m-%d %H:%M:%S WIB` whenever parsing succeeds, and the
raw date string whenever parsing fails; the normalization is a total
function, so a parse failure never escapes it. -/
theorem received_time_wib_total_spec (d : Str) :
    (∀ dt, fromisoformat d = some dt →
      received_time_wib d = strftime_wib (astimezone_wib dt)) ∧
    (fromisoformat d = none → received_time_wib d = d) := by
  constructor
  · intro dt h
    simp [received_time_wib, h]
  · intro h
    simp [received_time_wib, h]

/-- C8, witness: a parseable UTC instant is displayed converted to WIB, and
an RFC-2822-style string that `fromisoformat` rejects falls back to
itself. -/
theorem received_time_wib_total_spec_witness :
    fromisoformat ("2024-03-10T23:30:00+00:00".data)
      = some ⟨2024, 3, 10, 23, 30, 0, 0⟩ ∧
    received_time_wib ("2024-03-10T23:30:00+00:00".data)
      = strftime_wib (astimezone_wib ⟨2024, 3, 10, 23, 30, 0, 0⟩) ∧
    fromisoformat ("Sun, 10 Mar 2024".data) = none ∧
    received_time_wib ("Sun, 10 Mar 2024".data) = ("Sun, 10 Mar 2024".data) :=
  ⟨by decide,
    (received_time_wib_total_spec ("2024-03-10T23:30:00+00:00".data)).1 _ (by decide),
    by decide,
    (received_time_wib_total_spec ("Sun, 10 Mar 2024".data)).2 (by decide)⟩

/-- C9: a model response whose text is `None` or strips to the empty string
yields the fixed nonempty "Apologies..." reply, and that string differs from
the "System Notice..." fallback used when the call raises. -/
theorem ai_empty_output_fallback :
    (∀ t : Str, pyStrip t = [] → reply_text (.response (some t)) = ai_empty_reply) ∧
    reply_text (.response none) = ai_empty_reply ∧
    ai_empty_reply ≠ [] ∧
    ai_empty_reply ≠ ai_unavailable_reply := by
  refine ⟨?_, rfl, by decide, by decide⟩
  intro t h
  simp [reply_text, h]

/-- C9, witness: a whitespace-only model response gets the empty-output
fallback reply. -/
theorem ai_empty_output_fallback_witness :
    pyStrip ("  \n ".data) = [] ∧
    reply_text (.response (some ("  \n ".data))) = ai_empty_reply :=
  ⟨by decide, ai_empty_output_fallback.1 _ (by decide)⟩

/-- C10: if every message before the k-th in the batch completes and the
k-th raises (its send or mark-as-read fails), the cycle's outcomes are
exactly those of the messages before the k-th and the iteration aborts —
whatever comes after the k-th is not processed in this cycle. -/
theorem cycle_aborts_on_message_failure (cfg : Config) (now : Str)
    (pre post : List (InboundMessage × AiOutcome × Effects))
    (m : InboundMessage) (ai : AiOutcome) (fx : Effects)
    (hpre : pre.all (fun x => x.2.2.send_ok && x.2.2.mark_ok) = true)
    (hfx : (fx.send_ok && fx.mark_ok) = false) :
    run_cycle cfg now (pre ++ (m, ai, fx) :: post)
      = (pre.map (fun x => process_message cfg now x.1 x.2.1), true) := by
  induction pre with
  | nil =>
    simp [run_cycle, hfx]
  | cons a l ih =>
    obtain ⟨m1, ai1, fx1⟩ := a
    rw [List.all_cons, Bool.and_eq_true] at hpre
    simp [run_cycle, hpre.1, ih hpre.2]

/-- C10, witness: in a three-message batch whose second message fails to be
marked read, only the first message's outcome is produced and the cycle
aborts, leaving the third message untouched. -/
theorem cycle_aborts_on_message_failure_witness :
    run_cycle ⟨none, none⟩ ("now".data)
      ([sample_item ("A".data) ⟨true, true⟩] ++
        sample_item ("B".data) ⟨true, false⟩ ::
        [sample_item ("C".data) ⟨true, true⟩])
      = ([sample_item ("A".data) ⟨true, true⟩].map
          (fun x => process_message ⟨none, none⟩ ("now".data) x.1 x.2.1), true) :=
  cycle_aborts_on_message_failure ⟨none, none⟩ ("now".data)
    [sample_item ("A".data) ⟨true, true⟩]
    [sample_item ("C".data) ⟨true, true⟩]
    (sample_message ("B".data)) (.response (some ("ok".data))) ⟨true, false⟩
    (by decide) (by decide)
